import Mathlib

/-!
Verification of the auto_message comment-reply system.

Python strings are modelled as `List Char` (`Str`). Substring containment
(Python `in`), lower-casing, and `str.strip()` are modelled over that type;
`List.rdropWhile` from Mathlib plays the role of right-stripping. The external
generation call made by the orchestrator (`client.chat.completions.create`
followed by extraction of the reply text) is modelled as an explicit function
argument returning `Except Str Str`: `Except.error e` stands for the call
raising an exception whose string rendering is `e`, `Except.ok text` stands
for a successful call whose extracted message content is `text`. Exceptions
can only originate from that call: every other operation in the `try` block
(string lowering, list membership, dictionary lookup over literal keys,
string formatting) is total in Python on the argument types used.
-/

namespace AutoMessage

/-- A Python string, modelled as its list of characters. -/
abbrev Str := List Char

/-- Coerce a Lean string literal to the `Str` model. -/
def str (s : String) : Str := s.toList

/-- Python whitespace test used by `str.strip()` (space, tab, CR, LF). -/
def isWS (c : Char) : Bool := c.isWhitespace

/-- Python `s.strip()`: remove leading and trailing whitespace. -/
def pyStrip (l : Str) : Str := (l.dropWhile isWS).rdropWhile isWS

/-- Python `s.lower()` (ASCII-adequate model). -/
def pyLower (l : Str) : Str := l.map Char.toLower

/-- Python `needle in hay` substring test on strings. -/
def pyIn (needle hay : Str) : Bool := decide (needle <:+: hay)

/-- Python truthiness-based `a or b` for an optional string `a`:
`None` and the empty string are falsy. Models `custom_tone or ...` and
`model or self.model` in `app.py`. -/
def pyOrStr (a : Option Str) (b : Str) : Str :=
  match a with
  | none => b
  | some s => if s.isEmpty then b else s

/-! ### prompt.py -/

/-- Entry of the `tone_guidelines` dictionary in `PromptGenerator.__init__`. -/
structure ToneInfo where
  description : Str
  style : Str
  focus : Str
deriving DecidableEq, Repr

/-- The `tone_guidelines` dictionary of `PromptGenerator`, as an association
list in the source's insertion order. -/
def tone_guidelines : List (Str × ToneInfo) :=
  [ (str "empathetic",
      ToneInfo.mk
        (str "Compassionate and acknowledges the emotion behind the comment")
        (str "gentle, understanding, validating feelings")
        (str "emotional support and spiritual comfort")),
    (str "biblical",
      ToneInfo.mk
        (str "Rooted in spiritual truth without being overly formal")
        (str "wise, grounded in faith, thoughtful")
        (str "spiritual guidance and biblical wisdom")),
    (str "inviting",
      ToneInfo.mk
        (str "Leaves space for dialogue and reflection")
        (str "open-ended, encouraging conversation")
        (str "fostering connection and continued dialogue")),
    (str "humble",
      ToneInfo.mk
        (str "Points back to God and comes from a place of grace")
        (str "modest, grateful, God-centered")
        (str "deflecting praise to God and expressing gratitude")),
    (str "witty",
      ToneInfo.mk
        (str "Light, faith-filled humor when appropriate")
        (str "gentle humor, joy-filled, lighthearted")
        (str "bringing joy while maintaining spiritual depth")) ]

/-- `PromptGenerator.base_instructions` (exact text of the triple-quoted
string in the source, including its indentation). -/
def base_instructions : Str :=
  str "\n        Your response should be:\n        - Authentic and personal, not generic or robotic\n        - Spiritually grounded but not preachy\n        - Compassionate and understanding\n        - Humble and gracious\n        - 2-3 sentences maximum\n        - Written in a conversational, warm tone\n        \n        Avoid:\n        - Sales language or promotional content\n        - Being overly formal or religious jargon\n        - Dismissing or minimizing feelings\n        - Giving unsolicited advice unless clearly requested\n        - Generic phrases like \"Thank you for sharing\"\n        "

/-- The `tone_specific` f-string of the `empathetic` branch of
`create_prompt`, with `tone_info['style']` spliced in. -/
def empathetic_block (style : Str) : Str :=
  str "\n            The user seems to be experiencing difficulty or struggle. Your reply should:\n            - Acknowledge their feelings without trying to fix everything\n            - Offer gentle spiritual encouragement\n            - Show that you understand their situation\n            - Be " ++ style ++ str "\n            "

/-- The `tone_specific` f-string of the `biblical` branch of `create_prompt`. -/
def biblical_block (style : Str) : Str :=
  str "\n            The user appears to be seeking understanding or has questions. Your reply should:\n            - Offer spiritual wisdom or insight\n            - Reference spiritual principles naturally (without forcing Bible verses)\n            - Be thoughtful and grounded in faith\n            - Be " ++ style ++ str "\n            "

/-- The `tone_specific` f-string of the `inviting` branch of `create_prompt`. -/
def inviting_block (style : Str) : Str :=
  str "\n            Your reply should encourage continued conversation and reflection. It should:\n            - Ask a gentle follow-up question or invite further sharing\n            - Be welcoming and open\n            - Create space for dialogue\n            - Be " ++ style ++ str "\n            "

/-- The `tone_specific` f-string of the `humble` branch of `create_prompt`. -/
def humble_block (style : Str) : Str :=
  str "\n            The user seems positive or grateful. Your reply should:\n            - Deflect praise appropriately to God or the community\n            - Express gratitude\n            - Be modest about any role you might have played\n            - Be " ++ style ++ str "\n            "

/-- The `tone_specific` f-string of the `witty` branch of `create_prompt`. -/
def witty_block (style : Str) : Str :=
  str "\n            Your reply should bring some lightness while maintaining spiritual depth. It should:\n            - Include gentle, faith-filled humor if appropriate\n            - Be joyful and uplifting\n            - Maintain respect and sensitivity\n            - Be " ++ style ++ str "\n            "

/-- The `full_prompt` f-string of `create_prompt`, before `.strip()`. -/
def full_prompt_text (comment tone_specific desc focus : Str) : Str :=
  str "\n        A user has left this comment: \"" ++ comment ++
  str "\"\n        \n        " ++ tone_specific ++
  str "\n        \n        " ++ base_instructions ++
  str "\n        \n        Generate a reply that is " ++ desc ++
  str " and focuses on " ++ focus ++
  str ".\n        \n        Reply:\n        "

/-- `PromptGenerator.validate_tone`: `tone in self.tone_guidelines`. -/
def validate_tone (tone : Str) : Bool := (tone_guidelines.lookup tone).isSome

/-- `PromptGenerator.create_prompt`. The membership test
`tone not in self.tone_guidelines` is dictionary-key membership, i.e.
`lookup` succeeding. After the fallback the tone is one of the five keys, so
the `tone_info` lookup always succeeds (`getD` default unreachable) and the
five-way `if`/`elif` chain always takes a branch; the final `else` of the
Lean `if` chain corresponds to the source's last `elif tone == 'witty'`
branch, the only remaining possibility for a validated tone. -/
def create_prompt (comment tone0 : Str) : Str :=
  let tone := if (tone_guidelines.lookup tone0).isSome then tone0 else str "inviting"
  let tone_info := (tone_guidelines.lookup tone).getD (ToneInfo.mk [] [] [])
  let tone_specific :=
    if tone = str "empathetic" then empathetic_block tone_info.style
    else if tone = str "biblical" then biblical_block tone_info.style
    else if tone = str "inviting" then inviting_block tone_info.style
    else if tone = str "humble" then humble_block tone_info.style
    else witty_block tone_info.style
  pyStrip (full_prompt_text comment tone_specific tone_info.description tone_info.focus)

/-! ### app.py -/

/-- `struggling_keywords` of `CommentReplyAI.analyze_comment_sentiment`. -/
def struggling_keywords : List Str :=
  [str "struggle", str "struggling", str "hard", str "difficult", str "doubt",
   str "doubting", str "lost", str "confused", str "hurt", str "pain",
   str "afraid", str "scared", str "worried"]

/-- `positive_keywords` of `CommentReplyAI.analyze_comment_sentiment`. -/
def positive_keywords : List Str :=
  [str "thank", str "grateful", str "amazing", str "blessed", str "love",
   str "wonderful", str "beautiful", str "inspiring", str "helped",
   str "encouraging"]

/-- `questioning_keywords` of `CommentReplyAI.analyze_comment_sentiment`. -/
def questioning_keywords : List Str :=
  [str "why", str "how", str "what", str "when", str "where",
   str "understand", str "explain", str "confused", str "unclear",
   str "question"]

/-- `CommentReplyAI.analyze_comment_sentiment`. -/
def analyze_comment_sentiment (comment : Str) : Str :=
  let comment_lower := pyLower comment
  if struggling_keywords.any (fun k => pyIn k comment_lower) then str "struggling"
  else if positive_keywords.any (fun k => pyIn k comment_lower) then str "positive"
  else if questioning_keywords.any (fun k => pyIn k comment_lower) then str "questioning"
  else str "neutral"

/-- The `tone_mapping` dictionary of `CommentReplyAI.determine_tone`. -/
def tone_mapping : List (Str × Str) :=
  [(str "struggling", str "empathetic"),
   (str "positive", str "humble"),
   (str "questioning", str "biblical"),
   (str "neutral", str "inviting")]

/-- `CommentReplyAI.determine_tone`: `tone_mapping.get(sentiment, 'inviting')`. -/
def determine_tone (sentiment : Str) : Str :=
  (tone_mapping.lookup sentiment).getD (str "inviting")

/-- The dictionary returned by `CommentReplyAI.generate_reply`: exactly the
five keys `reply`, `tone_used`, `sentiment_detected`, `success`, `error`. -/
structure ReplyResult where
  reply : Option Str
  tone_used : Option Str
  sentiment_detected : Option Str
  success : Bool
  error : Option Str
deriving DecidableEq, Repr

/-- `CommentReplyAI.generate_reply`. `self_model` is `self.model`; `ext` is
the external generation call (see the file header); `custom_tone` and
`model` are the optional keyword arguments. In the `except` branch the
source writes `tone if 'tone' in locals() else None` (and likewise for
`sentiment`); since the only fallible operation in the `try` block is the
external call, which runs after both assignments, both locals are always
bound when the branch is taken, so the error result carries them. -/
def generate_reply (self_model : Str) (ext : Str → Str → Except Str Str)
    (comment : Str) (custom_tone : Option Str) (model : Option Str) : ReplyResult :=
  let model' := pyOrStr model self_model
  let sentiment := analyze_comment_sentiment comment
  let tone := pyOrStr custom_tone (determine_tone sentiment)
  let prompt := create_prompt comment tone
  match ext model' prompt with
  | Except.ok content =>
      ReplyResult.mk (some (pyStrip content)) (some tone) (some sentiment) true none
  | Except.error e =>
      ReplyResult.mk none (some tone) (some sentiment) false (some e)

/-- `CommentReplyAI.batch_generate_replies`. The `custom_tones` dictionary
(index to tone) is an association list; `custom_tones or {}` maps `None` to
the empty dictionary, and `.get(i)` is `lookup`. -/
def batch_generate_replies (self_model : Str) (ext : Str → Str → Except Str Str)
    (comments : List Str) (custom_tones : Option (List (Nat × Str))) : List ReplyResult :=
  let ct := custom_tones.getD []
  comments.enum.map (fun ic => generate_reply self_model ext ic.2 (ct.lookup ic.1) none)

/-! ### Bridge lemmas -/

/-- The Bool-level keyword scan agrees with the existential statement. -/
theorem any_pyIn_iff (ks : List Str) (h : Str) :
    (ks.any (fun k => pyIn k h) = true) ↔ ∃ k ∈ ks, k <:+: h := by
  simp [pyIn, List.any_eq_true]

/-- `dropWhile` stops inside the left part of an append as soon as that part
has a non-matching element. -/
theorem dropWhile_append_of_mem {p : Char → Bool} {l₁ : Str} (l₂ : Str)
    (h : ∃ x ∈ l₁, p x = false) :
    (l₁ ++ l₂).dropWhile p = l₁.dropWhile p ++ l₂ := by
  induction l₁ with
  | nil => simp at h
  | cons a t ih =>
    rw [List.cons_append, List.dropWhile_cons, List.dropWhile_cons]
    by_cases hpa : p a = true
    · obtain ⟨x, hx, hpx⟩ := h
      rcases List.mem_cons.mp hx with rfl | hxt
      · rw [hpa] at hpx; cases hpx
      · rw [if_pos hpa, if_pos hpa]
        exact ih ⟨x, hxt, hpx⟩
    · rw [if_neg hpa, if_neg hpa, List.cons_append]

/-- `rdropWhile` stops inside the right part of an append as soon as that
part has a non-matching element. -/
theorem rdropWhile_append_of_mem {p : Char → Bool} (l₁ : Str) {l₂ : Str}
    (h : ∃ x ∈ l₂, p x = false) :
    (l₁ ++ l₂).rdropWhile p = l₁ ++ l₂.rdropWhile p := by
  simp only [List.rdropWhile, List.reverse_append]
  rw [dropWhile_append_of_mem]
  · rw [List.reverse_append, List.reverse_reverse]
  · obtain ⟨x, hx, hpx⟩ := h
    exact ⟨x, List.mem_reverse.mpr hx, hpx⟩

/-- `rdropWhile` returns an initial segment of its input. -/
theorem rdropWhile_pre (p : Char → Bool) (l : Str) : l.rdropWhile p <+: l := by
  rw [← List.reverse_suffix]
  simp only [List.rdropWhile, List.reverse_reverse]
  exact List.dropWhile_suffix p

/-- An initial segment of a `dropWhile`-fixed list is itself fixed. -/
theorem dropWhile_fix_of_pre {p : Char → Bool} {l' l : Str} (h1 : l' <+: l)
    (h2 : l.dropWhile p = l) : l'.dropWhile p = l' := by
  obtain ⟨s, rfl⟩ := h1
  cases l' with
  | nil => rfl
  | cons a t =>
    rw [List.cons_append] at h2
    rw [List.dropWhile_cons] at h2 ⊢
    by_cases hpa : p a = true
    · exfalso
      rw [if_pos hpa] at h2
      have hlen := congrArg List.length h2
      have hle : ((t ++ s).dropWhile p).length ≤ (t ++ s).length :=
        (List.dropWhile_suffix p).sublist.length_le
      simp only [List.length_cons] at hlen
      omega
    · rw [if_neg hpa]

/-- A stripped string has no leading whitespace. -/
theorem pyStrip_dropWhile_eq (l : Str) : (pyStrip l).dropWhile isWS = pyStrip l :=
  dropWhile_fix_of_pre (rdropWhile_pre isWS _) (List.dropWhile_idempotent isWS l)

/-- A stripped string has no trailing whitespace. -/
theorem pyStrip_rdropWhile_eq (l : Str) : (pyStrip l).rdropWhile isWS = pyStrip l :=
  List.rdropWhile_idempotent isWS _

/-- Stripping a three-part concatenation whose outer parts both contain
non-whitespace leaves the middle intact. -/
theorem pyStrip_append_append {pre post : Str} (mid : Str)
    (h1 : ∃ x ∈ pre, isWS x = false) (h2 : ∃ x ∈ post, isWS x = false) :
    pyStrip (pre ++ (mid ++ post)) =
      pre.dropWhile isWS ++ (mid ++ post.rdropWhile isWS) := by
  unfold pyStrip
  rw [dropWhile_append_of_mem _ h1,
    rdropWhile_append_of_mem (pre.dropWhile isWS)
      ⟨_, List.mem_append_right mid h2.choose_spec.1, h2.choose_spec.2⟩,
    rdropWhile_append_of_mem mid h2]

/-- The stripped full prompt still contains the quoted comment: stripping
only eats whitespace at the two ends, and both the text before the opening
quote and the text after the closing quote contain non-whitespace. -/
theorem quoted_in_pyStrip (c ts d f : Str) :
    (str "\"" ++ c ++ str "\"") <:+: pyStrip (full_prompt_text c ts d f) := by
  have hsplit : full_prompt_text c ts d f =
      str "\n        A user has left this comment: \"" ++
        (c ++
          (str "\"\n        \n        " ++
            (ts ++
              (str "\n        \n        " ++
                (base_instructions ++
                  (str "\n        \n        Generate a reply that is " ++
                    (d ++
                      (str " and focuses on " ++
                        (f ++ str ".\n        \n        Reply:\n        "))))))))) := by
    simp only [full_prompt_text, List.append_assoc]
  rw [hsplit,
    pyStrip_append_append c ⟨'A', by decide, by decide⟩
      ⟨'"', List.mem_append_left _ (by decide), by decide⟩]
  have hdw : (str "\n        A user has left this comment: \"").dropWhile isWS =
      str "A user has left this comment: " ++ str "\"" := by decide
  set post : Str :=
    str "\"\n        \n        " ++
      (ts ++
        (str "\n        \n        " ++
          (base_instructions ++
            (str "\n        \n        Generate a reply that is " ++
              (d ++
                (str " and focuses on " ++
                  (f ++ str ".\n        \n        Reply:\n        "))))))) with hpost
  have hne : post.rdropWhile isWS ≠ [] := by
    intro h0
    have hall := List.rdropWhile_eq_nil_iff.mp h0 '"'
      (hpost ▸ List.mem_append_left _ (by decide))
    exact absurd hall (by decide)
  have hhd : post.head? = some '"' := by
    rw [hpost, List.head?_append_of_ne_nil _ (by decide)]
    decide
  obtain ⟨a, tl, hcons⟩ : ∃ a tl, post.rdropWhile isWS = a :: tl := by
    cases hx : post.rdropWhile isWS with
    | nil => exact absurd hx hne
    | cons a tl => exact ⟨a, tl, rfl⟩
  obtain ⟨s, hs⟩ := rdropWhile_pre isWS post
  rw [hcons] at hs
  rw [← hs, List.cons_append, List.head?_cons] at hhd
  obtain rfl : a = '"' := Option.some.inj hhd
  refine ⟨str "A user has left this comment: ", tl, ?_⟩
  rw [hdw, hcons]
  have hq : str "\"" = ['"'] := by decide
  simp only [hq, List.append_assoc, List.singleton_append, List.cons_append,
    List.nil_append]

/-- A non-empty string is truthy for the `or` fallback. -/
theorem pyOrStr_some_ne (b : Str) {t : Str} (h : t ≠ []) : pyOrStr (some t) b = t := by
  cases t with
  | nil => exact absurd rfl h
  | cons a t' => rfl

/-- Closed form of `determine_tone` as a decision chain. -/
theorem determine_tone_eq (s : Str) :
    determine_tone s =
      if s = str "struggling" then str "empathetic"
      else if s = str "positive" then str "humble"
      else if s = str "questioning" then str "biblical"
      else str "inviting" := by
  rcases eq_or_ne s (str "struggling") with rfl | n1
  · decide
  rcases eq_or_ne s (str "positive") with rfl | n2
  · decide
  rcases eq_or_ne s (str "questioning") with rfl | n3
  · decide
  rw [if_neg n1, if_neg n2, if_neg n3]
  have b1 : (s == str "struggling") = false := beq_eq_false_iff_ne.mpr n1
  have b2 : (s == str "positive") = false := beq_eq_false_iff_ne.mpr n2
  have b3 : (s == str "questioning") = false := beq_eq_false_iff_ne.mpr n3
  simp only [determine_tone, tone_mapping, List.lookup, b1, b2, b3]
  cases hb : s == str "neutral" <;> simp

/-- A validated tone is one of the five dictionary keys. -/
theorem known_tone_cases {t : Str} (h : validate_tone t = true) :
    t = str "empathetic" ∨ t = str "biblical" ∨ t = str "inviting" ∨
    t = str "humble" ∨ t = str "witty" := by
  by_cases h1 : t = str "empathetic"
  · exact Or.inl h1
  by_cases h2 : t = str "biblical"
  · exact Or.inr (Or.inl h2)
  by_cases h3 : t = str "inviting"
  · exact Or.inr (Or.inr (Or.inl h3))
  by_cases h4 : t = str "humble"
  · exact Or.inr (Or.inr (Or.inr (Or.inl h4)))
  by_cases h5 : t = str "witty"
  · exact Or.inr (Or.inr (Or.inr (Or.inr h5)))
  exfalso
  have b1 : (t == str "empathetic") = false := beq_eq_false_iff_ne.mpr h1
  have b2 : (t == str "biblical") = false := beq_eq_false_iff_ne.mpr h2
  have b3 : (t == str "inviting") = false := beq_eq_false_iff_ne.mpr h3
  have b4 : (t == str "humble") = false := beq_eq_false_iff_ne.mpr h4
  have b5 : (t == str "witty") = false := beq_eq_false_iff_ne.mpr h5
  simp only [validate_tone, tone_guidelines, List.lookup, b1, b2, b3, b4, b5] at h
  exact absurd h (by simp)

/-- The tone carried by every result of `generate_reply`, on both the
success path and the exception path. -/
theorem generate_reply_tone_used (dm : Str) (ext : Str → Str → Except Str Str)
    (c : Str) (ct m : Option Str) :
    (generate_reply dm ext c ct m).tone_used =
      some (pyOrStr ct (determine_tone (analyze_comment_sentiment c))) := by
  cases hx : ext (pyOrStr m dm)
      (create_prompt c (pyOrStr ct (determine_tone (analyze_comment_sentiment c)))) with
  | ok v => simp [generate_reply, hx]
  | error e => simp [generate_reply, hx]

/-- The sentiment carried by every result of `generate_reply`. -/
theorem generate_reply_sentiment (dm : Str) (ext : Str → Str → Except Str Str)
    (c : Str) (ct m : Option Str) :
    (generate_reply dm ext c ct m).sentiment_detected =
      some (analyze_comment_sentiment c) := by
  cases hx : ext (pyOrStr m dm)
      (create_prompt c (pyOrStr ct (determine_tone (analyze_comment_sentiment c)))) with
  | ok v => simp [generate_reply, hx]
  | error e => simp [generate_reply, hx]

/-- Success, reply and error fields of any `generate_reply` result are
consistent: success exactly when no error, exactly when a reply is present. -/
theorem generate_reply_inv (dm : Str) (ext : Str → Str → Except Str Str)
    (c : Str) (ct m : Option Str) :
    ((generate_reply dm ext c ct m).success = true ↔
      (generate_reply dm ext c ct m).error = none) ∧
    ((generate_reply dm ext c ct m).success = true ↔
      ∃ rp, (generate_reply dm ext c ct m).reply = some rp) ∧
    ((generate_reply dm ext c ct m).success = false →
      (generate_reply dm ext c ct m).reply = none ∧
      ∃ e, (generate_reply dm ext c ct m).error = some e) := by
  cases hx : ext (pyOrStr m dm)
      (create_prompt c (pyOrStr ct (determine_tone (analyze_comment_sentiment c)))) with
  | ok v => simp [generate_reply, hx]
  | error e => simp [generate_reply, hx]

/-- Unknown tones are replaced by `inviting` inside `create_prompt` before
any text is built. -/
theorem create_prompt_fallback (c t : Str) (h : validate_tone t = false) :
    create_prompt c t = create_prompt c (str "inviting") := by
  have h' : (tone_guidelines.lookup t).isSome = false := h
  have hv : (tone_guidelines.lookup (str "inviting")).isSome = true := by decide
  simp only [create_prompt, h', hv, Bool.false_eq_true, if_false, if_true]

/-! ### Claims -/

/-- C1: `analyze_comment_sentiment` lower-cases the comment and returns
exactly one of `struggling`, `positive`, `questioning`, `neutral`, chosen by
substring containment against the three fixed keyword sets in strict
priority order (struggling, then positive, then questioning), returning
`neutral` when none match; in particular any comment containing a
struggling-keyword classifies as `struggling` regardless of co-occurring
positive or questioning keywords. -/
theorem classify_characterization (comment : Str) :
    (analyze_comment_sentiment comment = str "struggling" ∨
     analyze_comment_sentiment comment = str "positive" ∨
     analyze_comment_sentiment comment = str "questioning" ∨
     analyze_comment_sentiment comment = str "neutral") ∧
    (analyze_comment_sentiment comment = str "struggling" ↔
      ∃ k ∈ struggling_keywords, k <:+: pyLower comment) ∧
    (analyze_comment_sentiment comment = str "positive" ↔
      ((¬ ∃ k ∈ struggling_keywords, k <:+: pyLower comment) ∧
       ∃ k ∈ positive_keywords, k <:+: pyLower comment)) ∧
    (analyze_comment_sentiment comment = str "questioning" ↔
      ((¬ ∃ k ∈ struggling_keywords, k <:+: pyLower comment) ∧
       (¬ ∃ k ∈ positive_keywords, k <:+: pyLower comment) ∧
       ∃ k ∈ questioning_keywords, k <:+: pyLower comment)) ∧
    (analyze_comment_sentiment comment = str "neutral" ↔
      ((¬ ∃ k ∈ struggling_keywords, k <:+: pyLower comment) ∧
       (¬ ∃ k ∈ positive_keywords, k <:+: pyLower comment) ∧
       (¬ ∃ k ∈ questioning_keywords, k <:+: pyLower comment))) := by
  simp only [analyze_comment_sentiment]
  split_ifs with h1 h2 h3
  · have e1 := (any_pyIn_iff struggling_keywords (pyLower comment)).mp h1
    exact ⟨Or.inl rfl,
      iff_of_true rfl e1,
      iff_of_false (by decide) (fun h => h.1 e1),
      iff_of_false (by decide) (fun h => h.1 e1),
      iff_of_false (by decide) (fun h => h.1 e1)⟩
  · have e1 : ¬ ∃ k ∈ struggling_keywords, k <:+: pyLower comment :=
      fun hx => h1 ((any_pyIn_iff _ _).mpr hx)
    have e2 := (any_pyIn_iff positive_keywords (pyLower comment)).mp h2
    exact ⟨Or.inr (Or.inl rfl),
      iff_of_false (by decide) e1,
      iff_of_true rfl ⟨e1, e2⟩,
      iff_of_false (by decide) (fun h => h.2.1 e2),
      iff_of_false (by decide) (fun h => h.2.1 e2)⟩
  · have e1 : ¬ ∃ k ∈ struggling_keywords, k <:+: pyLower comment :=
      fun hx => h1 ((any_pyIn_iff _ _).mpr hx)
    have e2 : ¬ ∃ k ∈ positive_keywords, k <:+: pyLower comment :=
      fun hx => h2 ((any_pyIn_iff _ _).mpr hx)
    have e3 := (any_pyIn_iff questioning_keywords (pyLower comment)).mp h3
    exact ⟨Or.inr (Or.inr (Or.inl rfl)),
      iff_of_false (by decide) e1,
      iff_of_false (by decide) (fun h => e2 h.2),
      iff_of_true rfl ⟨e1, e2, e3⟩,
      iff_of_false (by decide) (fun h => h.2.2 e3)⟩
  · have e1 : ¬ ∃ k ∈ struggling_keywords, k <:+: pyLower comment :=
      fun hx => h1 ((any_pyIn_iff _ _).mpr hx)
    have e2 : ¬ ∃ k ∈ positive_keywords, k <:+: pyLower comment :=
      fun hx => h2 ((any_pyIn_iff _ _).mpr hx)
    have e3 : ¬ ∃ k ∈ questioning_keywords, k <:+: pyLower comment :=
      fun hx => h3 ((any_pyIn_iff _ _).mpr hx)
    exact ⟨Or.inr (Or.inr (Or.inr rfl)),
      iff_of_false (by decide) e1,
      iff_of_false (by decide) (fun h => e2 h.2),
      iff_of_false (by decide) (fun h => e3 h.2.2),
      iff_of_true rfl ⟨e1, e2, e3⟩⟩

/-- C2 counterexample: with the unknown override `sarcastic`, the result of
`generate_reply` reports `tone_used = "sarcastic"`, which is not a member of
the known tone set — the claimed validation/fallback in the tone-resolution
step of `generate_reply` does not happen. -/
theorem override_not_validated_counter :
    (generate_reply (str "gpt-4") (fun _ _ => Except.ok (str "r"))
        (str "Nice post.") (some (str "sarcastic")) none).tone_used =
      some (str "sarcastic") ∧
    validate_tone (str "sarcastic") = false :=
  ⟨rfl, by decide⟩

/-- C2 (amended): `generate_reply` performs no validation of a caller
override: any non-empty override string is used verbatim as the tone and
reported in `tone_used`, even when unknown; only the prompt composer falls
back, composing the same prompt as for `inviting` when the override is not
a known tone. -/
theorem override_used_verbatim (dm : Str) (ext : Str → Str → Except Str Str)
    (c t : Str) (m : Option Str) (hne : t ≠ []) :
    (generate_reply dm ext c (some t) m).tone_used = some t ∧
    (validate_tone t = false → create_prompt c t = create_prompt c (str "inviting")) := by
  constructor
  · rw [generate_reply_tone_used, pyOrStr_some_ne _ hne]
  · exact create_prompt_fallback c t

/-- C2 witness: the amended statement at the concrete override `sarcastic`. -/
theorem override_used_verbatim_witness :
    (str "sarcastic" ≠ ([] : Str)) ∧
    (generate_reply (str "gpt-4") (fun _ p => Except.ok p) (str "Hello")
        (some (str "sarcastic")) none).tone_used = some (str "sarcastic") :=
  ⟨by decide,
    (override_used_verbatim (str "gpt-4") (fun _ p => Except.ok p) (str "Hello")
      (str "sarcastic") none (by decide)).1⟩

/-- C3: with no override, `determine_tone` realises exactly the fixed mapping
struggling→empathetic, positive→humble, questioning→biblical,
neutral→inviting, and never returns `witty` for any sentiment. -/
theorem determine_tone_spec :
    determine_tone (str "struggling") = str "empathetic" ∧
    determine_tone (str "positive") = str "humble" ∧
    determine_tone (str "questioning") = str "biblical" ∧
    determine_tone (str "neutral") = str "inviting" ∧
    ∀ s : Str, determine_tone s ≠ str "witty" := by
  refine ⟨by decide, by decide, by decide, by decide, ?_⟩
  intro s
  rw [determine_tone_eq]
  split_ifs <;> decide

/-- C4: a known-tone override wins regardless of sentiment — the result's
tone is the override unchanged — and the sentiment is still computed from
the comment and reported. -/
theorem override_wins (dm : Str) (ext : Str → Str → Except Str Str)
    (c t : Str) (m : Option Str) (h : validate_tone t = true) :
    (generate_reply dm ext c (some t) m).tone_used = some t ∧
    (generate_reply dm ext c (some t) m).sentiment_detected =
      some (analyze_comment_sentiment c) := by
  have hne : t ≠ [] := by
    rcases known_tone_cases h with rfl | rfl | rfl | rfl | rfl <;> decide
  rw [generate_reply_tone_used, generate_reply_sentiment, pyOrStr_some_ne _ hne]
  exact ⟨rfl, rfl⟩

/-- C4 witness: end-to-end scenario 4 — comment "Nice post." with override
`witty`: the override is used and the computed sentiment is reported. -/
theorem override_wins_witness :
    validate_tone (str "witty") = true ∧
    (generate_reply (str "gpt-4") (fun _ _ => Except.ok (str "r"))
        (str "Nice post.") (some (str "witty")) none).tone_used =
      some (str "witty") ∧
    (generate_reply (str "gpt-4") (fun _ _ => Except.ok (str "r"))
        (str "Nice post.") (some (str "witty")) none).sentiment_detected =
      some (analyze_comment_sentiment (str "Nice post.")) :=
  ⟨by decide,
    (override_wins (str "gpt-4") (fun _ _ => Except.ok (str "r")) (str "Nice post.")
      (str "witty") none (by decide)).1,
    (override_wins (str "gpt-4") (fun _ _ => Except.ok (str "r")) (str "Nice post.")
      (str "witty") none (by decide)).2⟩

/-- C5: whenever the external generation call fails, `generate_reply`
returns (does not throw) a result with `success = false`, no reply, the
failure description as `error`, and sentiment and tone populated, since
classification and tone resolution ran before the call. -/
theorem external_failure_result (dm : Str) (ext : Str → Str → Except Str Str)
    (c : Str) (ct m : Option Str) (e : Str)
    (h : ext (pyOrStr m dm)
          (create_prompt c (pyOrStr ct (determine_tone (analyze_comment_sentiment c)))) =
        Except.error e) :
    (generate_reply dm ext c ct m).success = false ∧
    (generate_reply dm ext c ct m).reply = none ∧
    (generate_reply dm ext c ct m).error = some e ∧
    (generate_reply dm ext c ct m).tone_used =
      some (pyOrStr ct (determine_tone (analyze_comment_sentiment c))) ∧
    (generate_reply dm ext c ct m).sentiment_detected =
      some (analyze_comment_sentiment c) := by
  simp [generate_reply, h]

/-- C5 witness: a concrete always-failing external call. -/
theorem external_failure_result_witness :
    ((fun _ _ => Except.error (str "boom") : Str → Str → Except Str Str)
        (pyOrStr none (str "gpt-4"))
        (create_prompt (str "Hello")
          (pyOrStr none (determine_tone (analyze_comment_sentiment (str "Hello"))))) =
      Except.error (str "boom")) ∧
    (generate_reply (str "gpt-4") (fun _ _ => Except.error (str "boom"))
        (str "Hello") none none).success = false :=
  ⟨rfl,
    (external_failure_result (str "gpt-4") (fun _ _ => Except.error (str "boom"))
      (str "Hello") none none (str "boom") rfl).1⟩

/-- C6: `batch_generate_replies` returns one result per comment, in input
order, and the result at each index is exactly `generate_reply` applied to
that comment with that index's optional override looked up from the mapping;
this holds for every external-call behaviour `ext`, so a failure at one
index never changes any other index's result and never terminates the batch
early. -/
theorem batch_spec (dm : Str) (ext : Str → Str → Except Str Str)
    (comments : List Str) (custom_tones : Option (List (Nat × Str))) :
    (batch_generate_replies dm ext comments custom_tones).length = comments.length ∧
    ∀ i : Nat, (batch_generate_replies dm ext comments custom_tones)[i]? =
      (comments[i]?).map
        (fun c => generate_reply dm ext c ((custom_tones.getD []).lookup i) none) := by
  constructor
  · simp [batch_generate_replies, List.enum_length]
  · intro i
    simp only [batch_generate_replies, List.getElem?_map, List.getElem?_enum]
    cases comments[i]? <;> rfl

/-- C7: composing with an unknown tone yields exactly the same prompt as
composing with `inviting`. -/
theorem compose_unknown_tone (c t : Str) (h : validate_tone t = false) :
    create_prompt c t = create_prompt c (str "inviting") :=
  create_prompt_fallback c t h

/-- C7 witness: the unknown tone `sarcastic` at a concrete comment. -/
theorem compose_unknown_tone_witness :
    validate_tone (str "sarcastic") = false ∧
    create_prompt (str "Hi there") (str "sarcastic") =
      create_prompt (str "Hi there") (str "inviting") :=
  ⟨by decide, compose_unknown_tone (str "Hi there") (str "sarcastic") (by decide)⟩

/-- C8: for every comment and every tone string, the composed prompt is a
trimmed string (no leading or trailing whitespace) that contains the literal
comment text quoted verbatim. -/
theorem compose_shape (c t : Str) :
    (str "\"" ++ c ++ str "\"") <:+: create_prompt c t ∧
    (create_prompt c t).dropWhile isWS = create_prompt c t ∧
    (create_prompt c t).rdropWhile isWS = create_prompt c t :=
  ⟨quoted_in_pyStrip c _ _ _, pyStrip_dropWhile_eq _, pyStrip_rdropWhile_eq _⟩

/-- C9: an empty-string tone override is falsy in the `custom_tone or ...`
resolution, so it behaves identically to passing no override at all. -/
theorem empty_override_eq_none (dm : Str) (ext : Str → Str → Except Str Str)
    (c : Str) (m : Option Str) :
    generate_reply dm ext c (some (str "")) m = generate_reply dm ext c none m := rfl

/-- C10: every result of `generate_reply` — and hence every element produced
by `batch_generate_replies` — carries exactly the five fields of
`ReplyResult`, with `success` true iff `error` absent iff a reply string is
present, and on failure the reply is absent and the error is a string. -/
theorem result_invariants (dm : Str) (ext : Str → Str → Except Str Str)
    (c : Str) (ct m : Option Str) (comments : List Str)
    (cts : Option (List (Nat × Str))) :
    (∀ r : ReplyResult,
      r = ReplyResult.mk r.reply r.tone_used r.sentiment_detected r.success r.error) ∧
    ((generate_reply dm ext c ct m).success = true ↔
      (generate_reply dm ext c ct m).error = none) ∧
    ((generate_reply dm ext c ct m).success = true ↔
      ∃ rp, (generate_reply dm ext c ct m).reply = some rp) ∧
    ((generate_reply dm ext c ct m).success = false →
      (generate_reply dm ext c ct m).reply = none ∧
      ∃ e, (generate_reply dm ext c ct m).error = some e) ∧
    (∀ r ∈ batch_generate_replies dm ext comments cts,
      (r.success = true ↔ r.error = none) ∧
      (r.success = true ↔ ∃ rp, r.reply = some rp) ∧
      (r.success = false → r.reply = none ∧ ∃ e, r.error = some e)) := by
  obtain ⟨i1, i2, i3⟩ := generate_reply_inv dm ext c ct m
  refine ⟨fun r => rfl, i1, i2, i3, ?_⟩
  intro r hr
  simp only [batch_generate_replies, List.mem_map] at hr
  obtain ⟨⟨i, cc⟩, _, rfl⟩ := hr
  exact generate_reply_inv dm ext cc _ none

end AutoMessage
